import Mathlib

/-!
Shallow embedding of `examples/lambda_templated_invoke_big_capture.cpp`
from the RADSan repository.

The C++ source (22 lines) is:

  template <typename Func> float invoke(Func &&func) { return func(); }

  [[clang::realtime]] float process() {
    auto data = std::array<float, 8>{};
    return invoke([data]() { return data[3]; });
  }

  int main() {
    std::cout << "I should pass!\n";
    return process();
  }

Modelling choices:
* `float` values are modelled as rationals (`ℚ`); every value occurring in
  the program (0.0) is exact, so no rounding is involved.
* `std::array<float, 8>` is modelled as a `List ℚ`; value-initialisation
  (`std::array<float, 8>{}`) yields eight zeros.
* `data[3]` on a `std::array` is undefined behaviour when the index is out
  of range, so indexing is embedded totally via `List.get?` returning an
  `Option`; `none` is the (unreachable) out-of-range branch.
* The template `invoke` is generic over the callable type `Func`; it is
  embedded as a function polymorphic in the callable's result type (the
  instantiation used by `process` has result `Option ℚ` because of the
  total embedding of indexing).  A second, state-passing embedding
  `invokeEff` of the same one-line template body is given for reasoning
  about effectful callables (call counts / side effects).
* `main` is embedded as a trace of observable events (stdout writes and
  the final exit), in program order.  The `float → int` conversion on
  `main`'s return is C++ truncation toward zero.
-/

/-- `float` values; all values in this program are exact. -/
abbrev FloatVal := ℚ

/-- `auto data = std::array<float, 8>{};` — value-initialised, all zeros. -/
def mkBuffer : List FloatVal := List.replicate 8 0

/-- `template <typename Func> float invoke(Func &&func) { return func(); }` —
the generic invocation wrapper: calls its argument once, returns the result. -/
def invoke {α : Type} (func : Unit → α) : α := func ()

/-- State-passing embedding of the same template body `{ return func(); }`
for an effectful callable acting on a state of type `σ`: the wrapper performs
exactly the effects of one call of `func`. -/
def invokeEff {σ α : Type} (func : σ → α × σ) : σ → α × σ :=
  fun s => func s

/-- A counting callable: returns the constant `c` and bumps a call counter.
Used to observe how many times the wrapper invokes its argument. -/
def countingCallable (c : FloatVal) : Nat → FloatVal × Nat :=
  fun n => (c, n + 1)

/-- The lambda `[data]() { return data[3]; }` with its by-value captured
copy `data`; indexing is total (`Option`), `none` being the out-of-range
(undefined-behaviour) branch. -/
def lambdaBody (data : List FloatVal) : Unit → Option FloatVal :=
  fun _ => data.get? 3

/-- `[[clang::realtime]] float process()` — builds the zero buffer, captures
it by value in the lambda, routes the call through `invoke`. -/
def process : Option FloatVal :=
  let data := mkBuffer
  invoke (lambdaBody data)

/-- Explicit state-passing form of the closure object: the captured copy is
its only state; the body `return data[3];` reads the copy and leaves it
unchanged. -/
structure Closure where
  data : List FloatVal

/-- One call of the closure: the body `return data[3];` in state-passing
form — result paired with the (unmodified) closure state. -/
def callClosure (c : Closure) : Option FloatVal × Closure :=
  (c.data.get? 3, c)

/-- `n` successive calls of the closure, collecting the results and
threading the closure state. -/
def callN (c : Closure) : Nat → List (Option FloatVal) × Closure
  | 0 => ([], c)
  | n + 1 =>
    let r := callClosure c
    let rest := callN r.2 n
    (r.1 :: rest.1, rest.2)

/-- C++ `float → int` conversion: truncation toward zero.  On a rational
`q = num/den` this is T-division of the numerator by the denominator. -/
def floatToInt (q : FloatVal) : ℤ :=
  Int.tdiv q.num (q.den : ℤ)

/-- Observable events of a program run, in program order. -/
inductive Event where
  | out (s : String)
  | exitWith (code : ℤ)
deriving DecidableEq, Repr

/-- `main`: prints `"I should pass!\n"`, then returns `process()` converted
to `int` as the exit status.  The trace lists the events in program order;
`none` would mean the run hit the unreachable undefined-behaviour branch. -/
def mainRun : Option (List Event) :=
  let line := "I should pass!\n"
  process.map (fun v => [Event.out line, Event.exitWith (floatToInt v)])

/-- The stdout lines of a trace, in order. -/
def outputsOf (es : List Event) : List String :=
  es.filterMap (fun e =>
    match e with
    | Event.out s => some s
    | Event.exitWith _ => none)

/-- The exit status delivered by a trace: the code of its last
`exitWith` event, if any. -/
def exitStatusOf (es : List Event) : Option ℤ :=
  es.reverse.findSome? (fun e =>
    match e with
    | Event.out _ => none
    | Event.exitWith c => some c)

/-- The process exit status of a run of the program. -/
def mainExitStatus : Option ℤ :=
  mainRun.bind exitStatusOf

/-- Execution environment visible to the process (standard input,
environment variables).  The program never reads either. -/
structure World where
  stdin : List String
  env : List (String × String)

/-- The whole program, run in an environment: the source contains no read
of standard input nor of any environment variable, so the run ignores the
world. -/
def runProgram (_w : World) : Option (List Event) :=
  mainRun

/-- Scope model for copy independence: the originating function's local
buffer variable, `none` once its scope has ended. -/
structure Scope where
  orig : Option (List FloatVal)

/-- Capturing by value: the closure receives its own copy of the buffer
currently held by the local variable (if the variable is in scope). -/
def captureByValue (s : Scope) : Option Closure :=
  s.orig.map Closure.mk

/-- Ending the originating scope destroys the local buffer variable. -/
def endScope (_s : Scope) : Scope :=
  ⟨none⟩

/-- Copy-independence scenario: construct the closure from the local zero
buffer, end the scope of the original variable, then invoke the closure. -/
def buildDiscardInvoke : Option FloatVal :=
  let s0 : Scope := ⟨some mkBuffer⟩
  match captureByValue s0 with
  | some clos =>
    let _s1 := endScope s0
    (callClosure clos).1
  | none => none

/-! ## Theorems -/

/-- C1: the annotated function `process`, which takes no inputs, always
returns the floating-point value 0.0 — element at index 3 of its freshly
constructed zero-initialized 8-element buffer. -/
theorem process_returns_zero : process = some (0 : FloatVal) := rfl

/-- C2: for every zero-argument callable `f` and every floating-point
constant `c`, if `f ()` returns `c` then `invoke f` returns exactly `c`,
unchanged. -/
theorem invoke_identity_of_return (f : Unit → FloatVal) (c : FloatVal)
    (h : f () = c) : invoke f = c := h

/-- Witness for C2 at the concrete constant callable returning 7. -/
theorem invoke_identity_of_return_witness :
    (fun _ : Unit => (7 : FloatVal)) () = 7 ∧
      invoke (fun _ : Unit => (7 : FloatVal)) = 7 :=
  ⟨rfl, invoke_identity_of_return (fun _ : Unit => (7 : FloatVal)) 7 rfl⟩

/-- C3: each call of the wrapper invokes its argument exactly once,
synchronously, with no side effects beyond that single invocation: in the
state-passing embedding, `invokeEff f` has exactly the result and the
state change of one call of `f`, and on a counting callable the counter
advances by exactly one. -/
theorem invoke_calls_once {σ α : Type} (f : σ → α × σ) (s : σ)
    (c : FloatVal) (n : Nat) :
    invokeEff f s = f s ∧ invokeEff (countingCallable c) n = (c, n + 1) :=
  ⟨rfl, rfl⟩

/-- C4: the program writes exactly one line, `"I should pass!\n"`, to
standard output, this write precedes the exit (with the annotated
function's result) in program order, and the process exits with status 0. -/
theorem main_prints_then_exits :
    mainRun = some [Event.out "I should pass!\n", Event.exitWith 0] ∧
      outputsOf [Event.out "I should pass!\n", Event.exitWith 0] =
        ["I should pass!\n"] ∧
      exitStatusOf [Event.out "I should pass!\n", Event.exitWith 0] =
        some 0 :=
  ⟨rfl, rfl, rfl⟩

/-- C5: the process exit status equals the integer truncation of the
floating-point value returned by `process`, which is 0 on this path. -/
theorem exit_status_is_truncated_process (v : FloatVal)
    (h : process = some v) :
    mainExitStatus = some (floatToInt v) ∧ floatToInt v = 0 := by
  have hv : v = 0 := by
    have := process_returns_zero.symm.trans h
    exact (Option.some.inj this).symm
  subst hv
  exact ⟨rfl, rfl⟩

/-- Witness for C5 at the actual value returned by `process`. -/
theorem exit_status_is_truncated_process_witness :
    process = some (0 : FloatVal) ∧
      mainExitStatus = some (floatToInt 0) ∧ floatToInt 0 = 0 :=
  ⟨rfl, exit_status_is_truncated_process 0 rfl⟩

/-- C6: every access to the 8-element buffer uses an index in `[0, 8)`:
the one access is at index 3, and in the total embedding the indexing
never hits the out-of-range (`none`) branch — for any captured buffer of
length 8, and in particular in `process` itself. -/
theorem buffer_access_in_range (data : List FloatVal)
    (h : data.length = 8) :
    3 < 8 ∧ (lambdaBody data ()).isSome = true ∧ process.isSome = true := by
  refine ⟨by norm_num, ?_, rfl⟩
  have h3 : 3 < data.length := by omega
  simp [lambdaBody, List.get?_eq_getElem?, List.getElem?_eq_getElem h3]

/-- Witness for C6 at the buffer `process` actually constructs. -/
theorem buffer_access_in_range_witness :
    mkBuffer.length = 8 ∧
      (3 < 8 ∧ (lambdaBody mkBuffer ()).isSome = true ∧
        process.isSome = true) :=
  ⟨rfl, buffer_access_in_range mkBuffer rfl⟩

/-- C7: copy independence — the closure owns its own by-value copy of the
buffer, so building the closure, ending the scope of the original buffer
variable, and then invoking the closure still yields 0.0 (index 3), the
same value `process` returns. -/
theorem closure_copy_independent :
    buildDiscardInvoke = some (0 : FloatVal) ∧ buildDiscardInvoke = process :=
  ⟨rfl, rfl⟩

/-- C8: the program is deterministic — `process` takes no inputs and the
run reads nothing from the world, so any two executions produce the same
observable behavior: the single stdout line and exit status 0. -/
theorem program_deterministic :
    (∀ w₁ w₂ : World, runProgram w₁ = runProgram w₂) ∧
      (∀ w : World, runProgram w =
        some [Event.out "I should pass!\n", Event.exitWith 0]) :=
  ⟨fun _ _ => rfl, fun _ => rfl⟩

/-- C9: the closure is pure and idempotent — invoking it any number of
times returns the same value (`data[3]` of the captured copy) each time,
and leaves the captured copy of the buffer unchanged. -/
theorem closure_pure_idempotent (c : Closure) (n : Nat) :
    (callN c n).1 = List.replicate n (c.data.get? 3) ∧ (callN c n).2 = c := by
  induction n with
  | zero => exact ⟨rfl, rfl⟩
  | succ n ih =>
    refine ⟨?_, ?_⟩ <;>
      simp [callN, callClosure, List.replicate, ih.1, ih.2]

/-- C10: noninterference — the closure's return value depends only on
index 3 of the captured buffer: any two captured buffers agreeing at
index 3 give equal results. -/
theorem closure_noninterference (d₁ d₂ : List FloatVal)
    (h : d₁.get? 3 = d₂.get? 3) :
    lambdaBody d₁ () = lambdaBody d₂ () := h

/-- Witness for C10: two buffers agreeing only at index 3 (value 5) and
differing at all other seven indices. -/
theorem closure_noninterference_witness :
    ([1, 2, 3, 5, 4, 6, 7, 8] : List FloatVal).get? 3 =
      ([9, 10, 11, 5, 12, 13, 14, 15] : List FloatVal).get? 3 ∧
    lambdaBody [1, 2, 3, 5, 4, 6, 7, 8] () =
      lambdaBody [9, 10, 11, 5, 12, 13, 14, 15] () :=
  ⟨rfl, closure_noninterference [1, 2, 3, 5, 4, 6, 7, 8]
    [9, 10, 11, 5, 12, 13, 14, 15] rfl⟩
